import Mathlib

/-!
Verification development for the ePIE-family ptychographic solvers in
`src/ptycho/pie.py` (`epie_recon`, `epie_joint_recon`).

Shallow embedding conventions:
* A diffraction frame / probe array of shape (m+1) × (n+1) is a function
  `Fin (m+1) × Fin (n+1) → ℂ`; measured amplitudes are real-valued frames.
* The object array is a function `ℤ × ℤ → ℂ`; its index domain (its numpy
  shape) is carried separately as a `Finset (ℤ × ℤ)` where a global sum is
  needed (phase normalization, NRMSE).
* `projection_coords[j]` is a 4-integer record (row_start, row_end,
  col_start, col_end), as in the data model.
* Helper functions imported from `utils` (`compute_ft`, `compute_ift`,
  `divide_cmplx_numbers`, `phase_norm`, `compute_nrmse`) are not part of the
  sources; they are modelled from the spec and marked as such.
* Python's ambient process-wide random state (`random.shuffle`) and the wall
  clock (`time.time`) are modelled as explicit streams threaded through the
  embedding; they are not parameters of the Python function's signature.
-/

namespace Ptycho

noncomputable section

/-- Index of a pixel inside an (m+1) × (n+1) frame (probe-shaped array). -/
abbrev FIdx (m n : ℕ) := Fin (m + 1) × Fin (n + 1)

/-- A complex frame of shape (m+1) × (n+1): probe, field, spectrum. -/
abbrev Frame (m n : ℕ) := FIdx m n → ℂ

/-- A real frame: measured diffraction amplitudes. -/
abbrev RFrame (m n : ℕ) := FIdx m n → ℝ

/-- The full complex object array, indexed by integer pixel coordinates. -/
abbrev Image := ℤ × ℤ → ℂ

/-- One row of `projection_coords`: the four integers
(row_start, row_end, col_start, col_end) of a measurement's window. -/
structure Coords where
  r0 : ℤ
  r1 : ℤ
  c0 : ℤ
  c1 : ℤ

/-- The spec invariant that a window's extent equals the probe shape
(m+1) × (n+1): `row_end - row_start` and `col_end - col_start` equal the
probe's dimensions. -/
def Sized (m n : ℕ) (c : Coords) : Prop :=
  c.r1 = c.r0 + (m + 1) ∧ c.c1 = c.c0 + (n + 1)

instance (m n : ℕ) (c : Coords) : Decidable (Sized m n c) := by
  unfold Sized; infer_instance

/-- Membership of an object pixel in the slice
`obj[r0:r1, c0:c1]` of a window. -/
def inWin (c : Coords) (p : ℤ × ℤ) : Prop :=
  c.r0 ≤ p.1 ∧ p.1 < c.r1 ∧ c.c0 ≤ p.2 ∧ p.2 < c.c1

instance (c : Coords) (p : ℤ × ℤ) : Decidable (inWin c p) := by
  unfold inWin; infer_instance

/-- Read a frame at integer offsets, 0 outside the frame extent
(reachable only if the `Sized` invariant is broken). -/
def frameAt {m n : ℕ} (f : Frame m n) (q : ℤ × ℤ) : ℂ :=
  if h : 0 ≤ q.1 ∧ q.1 < m + 1 ∧ 0 ≤ q.2 ∧ q.2 < n + 1 then
    f (⟨q.1.toNat, by omega⟩, ⟨q.2.toNat, by omega⟩)
  else 0

/-- `img2patch` restricted to one window: the slice
`obj[c.r0:c.r1, c.c0:c.c1]` as a probe-shaped frame (utils `img2patch`
stacks these over all measurements). -/
def img2patchOne {m n : ℕ} (obj : Image) (c : Coords) : Frame m n :=
  fun u => obj (c.r0 + (u.1 : ℤ), c.c0 + (u.2 : ℤ))

/-- The in-place slice update `obj[c.r0:c.r1, c.c0:c.c1] += f`:
pixels inside the window receive the frame value at their local offset,
all other pixels are untouched. -/
def addWin {m n : ℕ} (obj : Image) (c : Coords) (f : Frame m n) : Image :=
  fun p =>
    if inWin c p then obj p + frameAt f (p.1 - c.r0, p.2 - c.c0) else obj p

/-- `np.max(np.abs(f))`: the maximal magnitude over a frame. -/
def maxAbs {m n : ℕ} (f : Frame m n) : ℝ :=
  Finset.univ.sup' Finset.univ_nonempty fun u => Complex.abs (f u)

/-- Modelled from the spec: the Propagation Operator contract for the
missing `utils` functions `compute_ft` / `compute_ift` — `forward` is a
unitary 2D discrete Fourier transform and `inverse` its exact inverse, so
the round trips `inverse (forward x) = x` and `forward (inverse s) = s`
hold for every complex frame. Only this contract is used by the solvers. -/
structure PropagationOp (m n : ℕ) where
  forward : Frame m n → Frame m n
  inverse : Frame m n → Frame m n
  left_inv : ∀ x, inverse (forward x) = x
  right_inv : ∀ s, forward (inverse s) = s

/-- The identity operator satisfies the modelled propagation contract;
used to run the embedding on concrete inputs. -/
def idProp (m n : ℕ) : PropagationOp m n :=
  { forward := id
    inverse := id
    left_inv := fun _ => rfl
    right_inv := fun _ => rfl }

/-- Modelled from the spec: the minimum-magnitude floor of the guarded
division primitive `divide_cmplx_numbers` (missing `utils` code). -/
def divTol : ℝ := 1 / 10 ^ 15

/-- Modelled from the spec: `divide_cmplx_numbers(num, den)` divides a
complex numerator by a real magnitude with the divisor floored at
`divTol`, so a zero or near-zero divisor never blows up. -/
def divide_cmplx_numbers (num : ℂ) (den : ℝ) : ℂ :=
  num / (max den divTol : ℝ)

/-! ## Sequential solver `epie_recon`: one pass (pie.py lines 45-59)

At the start of each iteration the code extracts all patches of the
current object (`projected_patch = img2patch(obj_est, ...)`, line 46) and
forms all fields (`frm = np.copy(projected_patch) * probe`, line 47); the
per-measurement loop then reads only `frm[j]` from these pass-start
arrays while updating `obj_est` in place. -/

/-- Lines 52-54: the Fourier spectrum of the field for measurement `j`,
with its magnitude replaced by the measured amplitude and its phase kept:
`freq_update = diffraction_data[j] * np.exp(1j * np.angle(freq))`.
(`np.exp(1j * np.angle z)` is `Complex.exp (z.arg * I)`.) -/
def epieFreqUpdate {m n : ℕ} (P : PropagationOp m n) (yj : RFrame m n)
    (frmj : Frame m n) : Frame m n :=
  fun u => (yj u : ℂ) * Complex.exp ((P.forward frmj u).arg * Complex.I)

/-- Line 56: `frm_update[j] = compute_ift(freq_update)`. -/
def epieFrmUpdate {m n : ℕ} (P : PropagationOp m n) (yj : RFrame m n)
    (frmj : Frame m n) : Frame m n :=
  P.inverse (epieFreqUpdate P yj frmj)

/-- The Data-Fitting Projection `project(field_estimate, measured_amplitude)`
as performed by `epie_recon` lines 52-56: transform to the Fourier domain,
replace the magnitude by the measured amplitude keeping the phase angle
(`epieFreqUpdate`), inverse-transform back. -/
def project {m n : ℕ} (P : PropagationOp m n) (x : Frame m n)
    (a : RFrame m n) : Frame m n :=
  P.inverse (epieFreqUpdate P a x)

/-- Lines 58-59: the in-place ePIE object update for one measurement:
`obj_est[window j] += step_sz * conj(probe) * (frm_update[j] - frm[j]) / max(|probe|)**2`. -/
def epieObjStep {m n : ℕ} (step_sz : ℝ) (probe : Frame m n) (c : Coords)
    (frmj frmUpdj : Frame m n) (obj : Image) : Image :=
  addWin obj c fun u =>
    (step_sz : ℂ) * (starRingEnd ℂ) (probe u) * (frmUpdj u - frmj u) /
      ((maxAbs probe ^ 2 : ℝ) : ℂ)

/-- The field submitted to the data-fitting projection for measurement `j`
in `epie_recon`: the pass-start object patch times the probe
(lines 46-47, read at line 52 as `frm[j]`). -/
def epieSubmittedField {m n : ℕ} (coords : ℕ → Coords) (probe : Frame m n)
    (objStart : Image) (j : ℕ) : Frame m n :=
  fun u => img2patchOne objStart (coords j) u * probe u

/-- The body of the `for j in seq` loop of `epie_recon` (lines 50-59),
acting on the live object array; the fields `frms` were fixed at the start
of the pass. -/
def epiePassStep {m n : ℕ} (P : PropagationOp m n) (data : ℕ → RFrame m n)
    (coords : ℕ → Coords) (probe : Frame m n) (step_sz : ℝ)
    (frms : ℕ → Frame m n) (obj : Image) (j : ℕ) : Image :=
  epieObjStep step_sz probe (coords j) (frms j)
    (epieFrmUpdate P (data j) (frms j)) obj

/-- One full pass of `epie_recon` over the visit order `order`
(lines 46-59): patches and fields are formed once from the object as it is
at the start of the pass, then the loop folds the in-place updates. -/
def epiePass {m n : ℕ} (P : PropagationOp m n) (data : ℕ → RFrame m n)
    (coords : ℕ → Coords) (probe : Frame m n) (step_sz : ℝ)
    (order : List ℕ) (obj0 : Image) : Image :=
  order.foldl
    (epiePassStep P data coords probe step_sz
      (epieSubmittedField coords probe obj0)) obj0

/-! ## Joint solver `epie_joint_recon`: one pass (pie.py lines 140-155) -/

/-- The mutable state of the joint solver inside a pass: the live object
and probe arrays. -/
structure JointState (m n : ℕ) where
  obj : Image
  probe : Frame m n

/-- Line 150: `freq_update = diffraction_data[j] *
divide_cmplx_numbers(freq, np.abs(freq))` (guarded magnitude division). -/
def jointFreqUpdate {m n : ℕ} (P : PropagationOp m n) (yj : RFrame m n)
    (frm : Frame m n) : Frame m n :=
  fun u =>
    (yj u : ℂ) *
      divide_cmplx_numbers (P.forward frm u) (Complex.abs (P.forward frm u))

/-- Lines 145-155, the body of the `for j in seq` loop of
`epie_joint_recon`: extract the current patch (line 146), form the field
from it and the current probe (line 147), project (lines 149-150), take
the field difference (line 153), then update the object window (line 154)
and the probe (line 155, using the pre-update patch `projected_img`). -/
def jointStep {m n : ℕ} (P : PropagationOp m n) (data : ℕ → RFrame m n)
    (coords : ℕ → Coords) (obj_step_sz probe_step_sz : ℝ)
    (s : JointState m n) (j : ℕ) : JointState m n :=
  let projected_img : Frame m n := img2patchOne s.obj (coords j)
  let frm : Frame m n := fun u => projected_img u * s.probe u
  let delta_frm : Frame m n := fun u =>
    P.inverse (jointFreqUpdate P (data j) frm) u - frm u
  { obj := addWin s.obj (coords j) fun u =>
      (obj_step_sz : ℂ) * (starRingEnd ℂ) (s.probe u) * delta_frm u /
        ((maxAbs s.probe ^ 2 : ℝ) : ℂ)
    probe := fun u =>
      s.probe u + (probe_step_sz : ℂ) * (starRingEnd ℂ) (projected_img u) *
        delta_frm u / ((maxAbs projected_img ^ 2 : ℝ) : ℂ) }

/-- One pass of `epie_joint_recon` over the visit order (lines 143-155). -/
def jointPass {m n : ℕ} (P : PropagationOp m n) (data : ℕ → RFrame m n)
    (coords : ℕ → Coords) (obj_step_sz probe_step_sz : ℝ)
    (order : List ℕ) (s0 : JointState m n) : JointState m n :=
  order.foldl (jointStep P data coords obj_step_sz probe_step_sz) s0

/-! ## Ambient random state and `random.shuffle` (pie.py lines 4, 49, 141)

`import random` gives the process-wide generator; `random.shuffle(seq)`
permutes in place with Fisher-Yates, drawing `j = randbelow(i+1)` for
`i = len-1, ..., 1`. The ambient state is modelled as a stream of draws
`stream : ℕ → ℕ` together with a cursor; the draw for step `i` is
`stream t % (i+1)`. The stream/cursor are NOT parameters of the Python
functions' signatures — they model the global `random` module state. -/

/-- The Python swap `x[i], x[j] = x[j], x[i]` on a list. -/
def listSwap {α : Type*} (l : List α) (i j : ℕ) : List α :=
  match l[i]?, l[j]? with
  | some a, some b => (l.set i b).set j a
  | _, _ => l

/-- Fisher-Yates main loop, `i` counting down to 1; returns the permuted
list and the advanced ambient cursor. -/
def shuffleGo {α : Type*} (stream : ℕ → ℕ) :
    ℕ → ℕ → List α → List α × ℕ
  | t, 0, l => (l, t)
  | t, i + 1, l => shuffleGo stream (t + 1) i (listSwap l (i + 1) (stream t % (i + 2)))

/-- `random.shuffle(l)` drawing from the ambient stream at cursor `t`. -/
def pyShuffle {α : Type*} (stream : ℕ → ℕ) (t : ℕ) (l : List α) :
    List α × ℕ :=
  shuffleGo stream t (l.length - 1) l

/-! ## Modelled `utils` metric helpers -/

/-- Modelled from the spec: `compute_nrmse(img, ref_img, cstr)` (missing
`utils.nrmse` code) — the normalized root-mean-square error between an
estimate and a reference under a constraint/weight array: the Frobenius
norm of the weighted difference divided by the Frobenius norm of the
weighted reference. -/
def compute_nrmse {ι : Type*} (s : Finset ι) (img ref w : ι → ℂ) : ℝ :=
  Real.sqrt (∑ p in s, Complex.abs (w p * (img p - ref p)) ^ 2) /
    Real.sqrt (∑ p in s, Complex.abs (w p * ref p) ^ 2)

/-- Modelled from the spec: `phase_norm(img, ref)` (missing `utils` code)
— the global phase/scale normalization applied before error computation:
`img` is rescaled by the single complex scalar `⟨img, ref⟩ / ‖img‖²`
that best aligns it with `ref`, removing the global phase (and scale)
ambiguity of the reconstruction. -/
def phase_norm {ι : Type*} (s : Finset ι) (img ref : ι → ℂ) : ι → ℂ :=
  fun p =>
    (∑ q in s, (starRingEnd ℂ) (img q) * ref q) /
        ((∑ q in s, Complex.abs (img q) ^ 2 : ℝ) : ℂ) * img p

/-- The index set of the measurement stack `diffraction_data` with `N`
frames: frame number × pixel. -/
def diffrDom (m n N : ℕ) : Finset (ℕ × FIdx m n) :=
  Finset.range N ×ˢ Finset.univ

/-! ## The full `epie_recon` run (pie.py lines 7-95) -/

/-- The loop-carried state of `epie_recon`: the live object array, the
shuffled index list `seq` (persistent across iterations, line 37), the
ambient random cursor, the three per-iteration accumulator lists
(lines 38-40), and the latest `obj_revy` (line 71). -/
structure EpieIterState where
  obj : Image
  seq : List ℕ
  rng : ℕ
  objErr : List ℝ
  diffrErr : List ℝ
  timeLs : List ℝ
  objRevy : Image

/-- One iteration of the `for i in range(num_iter)` loop of `epie_recon`
(lines 45-74): shuffle, one sequential pass, elapsed-time append
(lines 62-63, wall clock modelled as the stream `clock`), the
diffraction-domain NRMSE (lines 66-68), and the object-domain NRMSE after
phase normalization (lines 70-73). -/
def epieIterBody {m n : ℕ} (P : PropagationOp m n) (data : ℕ → RFrame m n)
    (coords : ℕ → Coords) (N : ℕ) (probe : Frame m n) (step_sz : ℝ)
    (obj_ref : Image) (win : Image) (objDom : Finset (ℤ × ℤ))
    (stream : ℕ → ℕ) (clock : ℕ → ℝ) (s : EpieIterState) (i : ℕ) :
    EpieIterState :=
  let sh := pyShuffle stream s.rng s.seq
  let obj' := epiePass P data coords probe step_sz sh.1 s.obj
  let elapsed := clock (i + 1) - clock 0
  let diffraction_est : ℕ × FIdx m n → ℝ := fun p =>
    Complex.abs
      (P.forward (fun u => probe u * img2patchOne obj' (coords p.1) u) p.2)
  let diffr_nrmse_val :=
    compute_nrmse (diffrDom m n N) (fun p => (diffraction_est p : ℂ))
      (fun p => (data p.1 p.2 : ℂ)) 1
  let obj_revy :=
    phase_norm objDom (fun q => obj' q * win q) fun q => obj_ref q * win q
  let obj_nrmse_val :=
    compute_nrmse objDom (fun q => obj_revy q * win q)
      (fun q => obj_ref q * win q) fun q => win q
  { obj := obj'
    seq := sh.1
    rng := sh.2
    objErr := s.objErr ++ [obj_nrmse_val]
    diffrErr := s.diffrErr ++ [diffr_nrmse_val]
    timeLs := s.timeLs ++ [elapsed]
    objRevy := obj_revy }

/-- The state of `epie_recon` just before the loop (lines 34-41):
`obj_est` is a private copy of the initial guess, `seq = arange(N)`, all
accumulator lists empty (`obj_revy` not yet bound; the placeholder is
unobservable since a run with `num_iter = 0` raises before using it). -/
def epieInitState (init_obj_guess : Image) (N : ℕ) (rng0 : ℕ) :
    EpieIterState :=
  { obj := init_obj_guess
    seq := List.range N
    rng := rng0
    objErr := []
    diffrErr := []
    timeLs := []
    objRevy := fun _ => 0 }

/-- The whole iteration phase of `epie_recon` (lines 45-74): exactly
`num_iter` executions of the loop body, no early stopping. -/
def epieIterPhase {m n : ℕ} (P : PropagationOp m n) (data : ℕ → RFrame m n)
    (coords : ℕ → Coords) (N : ℕ) (probe : Frame m n) (step_sz : ℝ)
    (obj_ref : Image) (win : Image) (objDom : Finset (ℤ × ℤ))
    (stream : ℕ → ℕ) (clock : ℕ → ℝ) (init_obj_guess : Image)
    (rng0 num_iter : ℕ) : EpieIterState :=
  (List.range num_iter).foldl
    (epieIterBody P data coords N probe step_sz obj_ref win objDom stream clock)
    (epieInitState init_obj_guess N rng0)

/-- A value of the returned Python dict: a complex image or a list of
real error values. -/
inductive OutVal
  | img (v : Image)
  | rlist (l : List ℝ)

/-- Python runtime errors raised by the post-loop code of `epie_recon`. -/
inductive PyErr
  | nameError (name : String)
  | typeError (msg : String)
deriving DecidableEq

/-- Lines 91-93: `output = dict(zip(['obj_revy', 'obj_err', 'diffr_err'],
[obj_revy, obj_nrmse_ls, diffr_nrmse_ls]))`. -/
def epieOutput (s : EpieIterState) : List (String × OutVal) :=
  [("obj_revy", OutVal.img s.objRevy), ("obj_err", OutVal.rlist s.objErr),
    ("diffr_err", OutVal.rlist s.diffrErr)]

/-- The whole of `epie_recon` (lines 7-95). After the loop, line 77
evaluates `save_dir + 'obj_est_iter_{}.tiff'.format(i + 1)`: with
`num_iter = 0` the loop variable `i` is unbound (`NameError`); with
`save_dir = None` the concatenation `None + str` raises a `TypeError`.
Only when both succeed does the function reach `return output`
(file-writing and plotting side effects are out of scope). -/
def epie_recon {m n : ℕ} (P : PropagationOp m n) (data : ℕ → RFrame m n)
    (coords : ℕ → Coords) (N : ℕ) (probe_ref : Frame m n) (step_sz : ℝ)
    (obj_ref : Image) (win : Image) (objDom : Finset (ℤ × ℤ))
    (stream : ℕ → ℕ) (clock : ℕ → ℝ) (init_obj_guess : Image)
    (rng0 num_iter : ℕ) (save_dir : Option String) :
    Except PyErr (List (String × OutVal)) :=
  let s := epieIterPhase P data coords N probe_ref step_sz obj_ref win
    objDom stream clock init_obj_guess rng0 num_iter
  if num_iter = 0 then Except.error (PyErr.nameError "i")
  else
    match save_dir with
    | none =>
        Except.error
          (PyErr.typeError "unsupported operand type(s) for +: NoneType and str")
    | some _ => Except.ok (epieOutput s)

/-! ## The `epie_joint_recon` iteration (pie.py lines 126-179)

`obj_ref` / `probe_ref` are optional. When `None`, lines 165-167 (171-172)
bind `obj_revy = obj_est` and then `obj_ref = obj_revy` — both names now
alias the live estimate array, so every later iteration takes the
non-`None` branch with the current estimate itself as reference. The
three-way `RefMode` tracks this: a supplied reference, not-yet-bound, or
aliased-to-the-live-estimate. -/

/-- Binding state of an optional reference argument across iterations. -/
inductive RefMode (α : Type*)
  | rnone
  | rGiven (r : α)
  | rAlias

/-- The loop-carried state of `epie_joint_recon`: live object and probe,
shuffled `seq` (line 133), ambient random cursor, the three error lists
(lines 130-132), the reference binding modes, and the latest normalized
estimates. -/
structure JointIterState (m n : ℕ) where
  st : JointState m n
  seq : List ℕ
  rng : ℕ
  objErr : List ℝ
  probeErr : List ℝ
  diffrErr : List ℝ
  objRef : RefMode Image
  probeRef : RefMode (Frame m n)
  objRevy : Image
  probeRevy : Frame m n

/-- One iteration of the `for i in range(num_iter)` loop of
`epie_joint_recon` (lines 140-179): shuffle, the sequential joint pass,
diffraction-domain NRMSE (lines 157-160), phase normalization of object
and probe under the optional-reference branching (lines 162-172), and the
object/probe NRMSE values (lines 174-178). -/
def jointIterBody {m n : ℕ} (P : PropagationOp m n) (data : ℕ → RFrame m n)
    (coords : ℕ → Coords) (N : ℕ) (obj_step_sz probe_step_sz : ℝ)
    (win : Image) (objDom : Finset (ℤ × ℤ)) (stream : ℕ → ℕ)
    (s : JointIterState m n) (_i : ℕ) : JointIterState m n :=
  let sh := pyShuffle stream s.rng s.seq
  let st' := jointPass P data coords obj_step_sz probe_step_sz sh.1 s.st
  let diffraction_est : ℕ × FIdx m n → ℝ := fun p =>
    Complex.abs
      (P.forward (fun u => st'.probe u * img2patchOne st'.obj (coords p.1) u) p.2)
  let diffr_nrmse_val :=
    compute_nrmse (diffrDom m n N) (fun p => (diffraction_est p : ℂ))
      (fun p => (data p.1 p.2 : ℂ)) 1
  let objPair : Image × RefMode Image :=
    match s.objRef with
    | RefMode.rGiven r =>
        (phase_norm objDom (fun q => st'.obj q * win q)
          (fun q => r q * win q), RefMode.rGiven r)
    | RefMode.rnone => (st'.obj, RefMode.rAlias)
    | RefMode.rAlias =>
        (phase_norm objDom (fun q => st'.obj q * win q)
          (fun q => st'.obj q * win q), RefMode.rAlias)
  let objRefVal : Image :=
    match s.objRef with
    | RefMode.rGiven r => r
    | _ => st'.obj
  let probePair : Frame m n × RefMode (Frame m n) :=
    match s.probeRef with
    | RefMode.rGiven r =>
        (phase_norm Finset.univ st'.probe r, RefMode.rGiven r)
    | RefMode.rnone => (st'.probe, RefMode.rAlias)
    | RefMode.rAlias =>
        (phase_norm Finset.univ st'.probe st'.probe, RefMode.rAlias)
  let probeRefVal : Frame m n :=
    match s.probeRef with
    | RefMode.rGiven r => r
    | _ => st'.probe
  let img_nrmse_val :=
    compute_nrmse objDom (fun q => objPair.1 q * win q)
      (fun q => objRefVal q * win q) fun q => win q
  let probe_nrmse_val := compute_nrmse Finset.univ probePair.1 probeRefVal 1
  { st := st'
    seq := sh.1
    rng := sh.2
    objErr := s.objErr ++ [img_nrmse_val]
    probeErr := s.probeErr ++ [probe_nrmse_val]
    diffrErr := s.diffrErr ++ [diffr_nrmse_val]
    objRef := objPair.2
    probeRef := probePair.2
    objRevy := objPair.1
    probeRevy := probePair.1 }

/-- The state of `epie_joint_recon` just before the loop (lines 129-135):
private copies of the initial object and probe, `seq = arange(N)`, empty
error lists, reference modes set from the optional arguments. -/
def jointInitState {m n : ℕ} (init_obj : Image) (init_probe : Frame m n)
    (obj_ref : Option Image) (probe_ref : Option (Frame m n)) (N : ℕ)
    (rng0 : ℕ) : JointIterState m n :=
  { st := { obj := init_obj, probe := init_probe }
    seq := List.range N
    rng := rng0
    objErr := []
    probeErr := []
    diffrErr := []
    objRef := match obj_ref with
      | some r => RefMode.rGiven r
      | none => RefMode.rnone
    probeRef := match probe_ref with
      | some r => RefMode.rGiven r
      | none => RefMode.rnone
    objRevy := fun _ => 0
    probeRevy := fun _ => 0 }

/-- The whole iteration phase of `epie_joint_recon` (lines 140-179). -/
def jointIterPhase {m n : ℕ} (P : PropagationOp m n) (data : ℕ → RFrame m n)
    (coords : ℕ → Coords) (N : ℕ) (obj_step_sz probe_step_sz : ℝ)
    (win : Image) (objDom : Finset (ℤ × ℤ)) (stream : ℕ → ℕ)
    (init_obj : Image) (init_probe : Frame m n) (obj_ref : Option Image)
    (probe_ref : Option (Frame m n)) (rng0 num_iter : ℕ) :
    JointIterState m n :=
  (List.range num_iter).foldl
    (jointIterBody P data coords N obj_step_sz probe_step_sz win objDom stream)
    (jointInitState init_obj init_probe obj_ref probe_ref N rng0)

/-! ## Heap model of `epie_recon`'s array ownership (pie.py lines 34-59)

To state the frame property (inputs never mutated) the arrays live in an
explicit store: a list of heap cells, a reference being an index into it.
`np.copy` is an allocation (append) of a fresh cell holding the copied
value; the in-place writes of the loop (`obj_est[...] += ...`,
`frm_update[j] = ...`) are `List.set` on the cells allocated by the
function itself. Input arrays are cells that exist before the call. -/

/-- A heap cell: a full object image, a single complex frame, a stack of
complex frames, or a stack of real measurement frames. -/
inductive HVal (m n : ℕ)
  | himg (v : Image)
  | hframe (f : Frame m n)
  | hstack (d : ℕ → Frame m n)
  | hrstack (d : ℕ → RFrame m n)

/-- Read an image-valued cell (0-image on a dangling or ill-typed
reference, which a well-formed call never exercises). -/
def readImg {m n : ℕ} (st : List (HVal m n)) (r : ℕ) : Image :=
  match st[r]? with
  | some (HVal.himg v) => v
  | _ => fun _ => 0

/-- Read a frame-valued cell. -/
def readFrame {m n : ℕ} (st : List (HVal m n)) (r : ℕ) : Frame m n :=
  match st[r]? with
  | some (HVal.hframe f) => f
  | _ => fun _ => 0

/-- Read a real measurement-stack cell. -/
def readData {m n : ℕ} (st : List (HVal m n)) (r : ℕ) : ℕ → RFrame m n :=
  match st[r]? with
  | some (HVal.hrstack d) => d
  | _ => fun _ _ => 0

/-- The final contents of the `frm_update` stack of one pass: zeros
(line 48) overwritten at each visited index by the projected field
(line 56). -/
def frmUpdateStack {m n : ℕ} (P : PropagationOp m n)
    (data : ℕ → RFrame m n) (coords : ℕ → Coords) (probe : Frame m n)
    (objStart : Image) (order : List ℕ) : ℕ → Frame m n :=
  fun j =>
    if j ∈ order then
      epieFrmUpdate P (data j) (epieSubmittedField coords probe objStart j)
    else 0

/-- One iteration of the heap-level loop (lines 45-59): reads the
measurement stack, the private probe copy and the live object through the
store, allocates the fresh `frm_update` stack (line 48), and performs the
pass's in-place updates on the `obj_est` cell. -/
def epieHeapIter {m n : ℕ} (P : PropagationOp m n) (coords : ℕ → Coords)
    (step_sz : ℝ) (orders : ℕ → List ℕ) (rObj rPr rData : ℕ)
    (st : List (HVal m n)) (i : ℕ) : List (HVal m n) :=
  let dataV := readData st rData
  let probeV := readFrame st rPr
  let objV := readImg st rObj
  (st ++ [HVal.hstack (frmUpdateStack P dataV coords probeV objV (orders i))]).set
    rObj (HVal.himg (epiePass P dataV coords probeV step_sz (orders i) objV))

/-- The heap-level run of `epie_recon`'s array code: allocate
`obj_est = np.copy(init_obj_guess)` (line 35) and `probe =
np.copy(probe_ref)` (line 36); then iterate `epieHeapIter`. Measurements
`diffraction_data`, `probe_ref` and `init_obj_guess` are referred to only
by the input references `rData`, `rProbe`, `rInit`. -/
def epieHeapRun {m n : ℕ} (P : PropagationOp m n) (coords : ℕ → Coords)
    (step_sz : ℝ) (orders : ℕ → List ℕ) (num_iter : ℕ)
    (st0 : List (HVal m n)) (rInit rData rProbe : ℕ) : List (HVal m n) :=
  let rObj := st0.length
  let st1 := st0 ++ [HVal.himg (readImg st0 rInit)]
  let rPr := st1.length
  let st2 := st1 ++ [HVal.hframe (readFrame st1 rProbe)]
  (List.range num_iter).foldl
    (epieHeapIter P coords step_sz orders rObj rPr rData) st2

/-! ## General lemmas -/

/-- NRMSE values are non-negative (a quotient of square roots). -/
theorem compute_nrmse_nonneg {ι : Type*} (s : Finset ι) (img ref w : ι → ℂ) :
    0 ≤ compute_nrmse s img ref w :=
  div_nonneg (Real.sqrt_nonneg _) (Real.sqrt_nonneg _)

/-- A fold over `k+1` elements is the step applied to the fold over the
first `k`. -/
theorem foldl_take_succ {α β : Type*} (f : α → β → α) (l : List β) (a : α)
    (k : ℕ) (hk : k < l.length) :
    (l.take (k + 1)).foldl f a = f ((l.take k).foldl f a) (l.get ⟨k, hk⟩) := by
  rw [List.take_succ, List.foldl_append, List.getElem?_eq_getElem hk]
  rfl

/-- A fold preserves any invariant preserved by each step. -/
theorem foldl_invariant {α β : Type*} (f : α → β → α) (Inv : α → Prop)
    (h : ∀ a b, Inv a → Inv (f a b)) :
    ∀ (l : List β) (a : α), Inv a → Inv (l.foldl f a) := by
  intro l
  induction l with
  | nil => intro a ha; exact ha
  | cons b t ih => intro a ha; exact ih (f a b) (h a b ha)

/-- Reading back the slice just updated in place: inside a well-sized
window, `addWin` adds the update frame pointwise to the previous patch. -/
theorem img2patchOne_addWin_self {m n : ℕ} {c : Coords} (hc : Sized m n c)
    (obj : Image) (f : Frame m n) (u : FIdx m n) :
    img2patchOne (addWin obj c f) c u = img2patchOne obj c u + f u := by
  obtain ⟨hr, hcc⟩ := hc
  have h1 : (u.1 : ℤ) < (m : ℤ) + 1 := by exact_mod_cast u.1.isLt
  have h2 : (u.2 : ℤ) < (n : ℤ) + 1 := by exact_mod_cast u.2.isLt
  have h3 : (0 : ℤ) ≤ (u.1 : ℤ) := Int.natCast_nonneg _
  have h4 : (0 : ℤ) ≤ (u.2 : ℤ) := Int.natCast_nonneg _
  unfold img2patchOne addWin
  have hin : inWin c (c.r0 + (u.1 : ℤ), c.c0 + (u.2 : ℤ)) := by
    unfold inWin; omega
  rw [if_pos hin]
  congr 1
  have e1 : c.r0 + (u.1 : ℤ) - c.r0 = (u.1 : ℤ) := by ring
  have e2 : c.c0 + (u.2 : ℤ) - c.c0 = (u.2 : ℤ) := by ring
  unfold frameAt
  rw [dif_pos]
  · congr 1
    simp [e1, e2]
  · refine ⟨by omega, by omega, by omega, by omega⟩

/-- Pixels outside the window are untouched by the in-place update. -/
theorem addWin_not_inWin {m n : ℕ} {c : Coords} {p : ℤ × ℤ}
    (h : ¬ inWin c p) (obj : Image) (f : Frame m n) :
    addWin obj c f p = obj p := if_neg h

/-! ## Claims -/

/-- C2: the Data-Fitting Projection transforms the field to the Fourier
domain, replaces the magnitude by the measured amplitude while keeping the
phase angle (`measured_amplitude * exp(i*angle(spectrum))`, pie.py
line 54), and inverse-transforms back; hence for every non-negative
measured amplitude `a` and nonzero field `x`, the magnitude of the forward
transform of the projected field equals `a` at every pixel. -/
theorem C2_project_magnitude {m n : ℕ} (P : PropagationOp m n)
    (a : RFrame m n) (x : Frame m n) (ha : ∀ u, 0 ≤ a u) (_hx : x ≠ 0)
    (u : FIdx m n) :
    Complex.abs (P.forward (project P x a) u) = a u := by
  unfold project
  rw [P.right_inv]
  unfold epieFreqUpdate
  rw [map_mul, Complex.abs_exp_ofReal_mul_I, mul_one, Complex.abs_ofReal,
    abs_of_nonneg (ha u)]

/-- Witness for C2 at a concrete input: the identity propagation operator,
constant amplitude 2, constant field 1. -/
theorem C2_project_magnitude_witness :
    Complex.abs ((idProp 0 0).forward
      (project (idProp 0 0) (fun _ => 1) fun _ => 2) (0, 0)) = 2 :=
  C2_project_magnitude (idProp 0 0) (fun _ => 2) (fun _ => 1)
    (fun _ => by norm_num)
    (by
      intro h
      have h0 := congrFun h (0, 0)
      simp only [Pi.zero_apply] at h0
      exact one_ne_zero h0)
    (0, 0)

/-- C3: for every measurement visited in the permuted order, the
sequential solvers' object update adds to the object window exactly
`step_size * conj(probe) * (projected_field - unprojected_field) /
max(|probe|)^2` — stated for `epie_recon` (lines 58-59, where the
unprojected field is the pass-start field `frm[j]`) and for
`epie_joint_recon` (line 154, where it is the field formed from the
current patch and probe). -/
theorem C3_object_update_formula {m n : ℕ} (P : PropagationOp m n)
    (data : ℕ → RFrame m n) (coords : ℕ → Coords) (probe : Frame m n)
    (step_sz obj_step_sz probe_step_sz : ℝ) (order : List ℕ) (obj0 : Image)
    (s0 : JointState m n) (k : ℕ) (hk : k < order.length) :
    epiePass P data coords probe step_sz (order.take (k + 1)) obj0 =
      addWin (epiePass P data coords probe step_sz (order.take k) obj0)
        (coords (order.get ⟨k, hk⟩))
        (fun u =>
          (step_sz : ℂ) * (starRingEnd ℂ) (probe u) *
            (epieFrmUpdate P (data (order.get ⟨k, hk⟩))
                (epieSubmittedField coords probe obj0 (order.get ⟨k, hk⟩)) u -
              epieSubmittedField coords probe obj0 (order.get ⟨k, hk⟩) u) /
            ((maxAbs probe ^ 2 : ℝ) : ℂ)) ∧
    (∀ sk : JointState m n,
      sk = jointPass P data coords obj_step_sz probe_step_sz (order.take k) s0 →
      (jointPass P data coords obj_step_sz probe_step_sz
          (order.take (k + 1)) s0).obj =
        addWin sk.obj (coords (order.get ⟨k, hk⟩))
          (fun u =>
            (obj_step_sz : ℂ) * (starRingEnd ℂ) (sk.probe u) *
              (P.inverse
                  (jointFreqUpdate P (data (order.get ⟨k, hk⟩)) fun v =>
                    img2patchOne sk.obj (coords (order.get ⟨k, hk⟩)) v *
                      sk.probe v) u -
                img2patchOne sk.obj (coords (order.get ⟨k, hk⟩)) u *
                  sk.probe u) /
              ((maxAbs sk.probe ^ 2 : ℝ) : ℂ))) := by
  constructor
  · unfold epiePass
    rw [foldl_take_succ _ _ _ k hk]
    rfl
  · intro sk hsk
    subst hsk
    unfold jointPass
    rw [foldl_take_succ _ _ _ k hk]
    rfl

/-- Witness for C3 at a concrete input: identity operator, one
measurement, 1×1 window at the origin, all-ones object and probe,
amplitude 3. -/
theorem C3_object_update_formula_witness :
    epiePass (idProp 0 0) (fun _ _ => 3) (fun _ => Coords.mk 0 1 0 1)
        (fun _ => 1) 1 [0] (fun _ => 1) =
      addWin (fun _ => 1) (Coords.mk 0 1 0 1)
        (fun u =>
          ((1 : ℝ) : ℂ) * (starRingEnd ℂ) 1 *
            (epieFrmUpdate (idProp 0 0) (fun _ => 3)
                (epieSubmittedField (fun _ => Coords.mk 0 1 0 1)
                  (fun _ => 1) (fun _ => 1) 0) u -
              epieSubmittedField (fun _ => Coords.mk 0 1 0 1) (fun _ => 1)
                (fun _ => 1) 0 u) /
            ((maxAbs (fun _ => 1 : Frame 0 0) ^ 2 : ℝ) : ℂ)) ∧
    (jointPass (idProp 0 0) (fun _ _ => 3) (fun _ => Coords.mk 0 1 0 1) 1 1
        [0] ⟨fun _ => 1, fun _ => 1⟩).obj =
      addWin (fun _ => 1) (Coords.mk 0 1 0 1)
        (fun u =>
          ((1 : ℝ) : ℂ) * (starRingEnd ℂ) 1 *
            (((idProp 0 0).inverse
                (jointFreqUpdate (idProp 0 0) (fun _ => 3) fun v =>
                  img2patchOne (fun _ => 1) (Coords.mk 0 1 0 1) v * 1) u) -
              img2patchOne (fun _ => 1) (Coords.mk 0 1 0 1) u * 1) /
            ((maxAbs (fun _ => 1 : Frame 0 0) ^ 2 : ℝ) : ℂ)) :=
  ⟨(C3_object_update_formula (idProp 0 0) (fun _ _ => 3)
      (fun _ => Coords.mk 0 1 0 1) (fun _ => 1) 1 1 1 [0] (fun _ => 1)
      ⟨fun _ => 1, fun _ => 1⟩ 0 (by decide)).1,
    (C3_object_update_formula (idProp 0 0) (fun _ _ => 3)
      (fun _ => Coords.mk 0 1 0 1) (fun _ => 1) 1 1 1 [0] (fun _ => 1)
      ⟨fun _ => 1, fun _ => 1⟩ 0 (by decide)).2 _ rfl⟩

/-- C4: in `epie_joint_recon`, the probe update at each measurement adds
`probe_step_sz * conj(patch) * (projected_field - unprojected_field) /
max(|patch|)^2` where `patch` is the object patch extracted before the
object update of that measurement (pie.py lines 146 and 155). -/
theorem C4_probe_update_formula {m n : ℕ} (P : PropagationOp m n)
    (data : ℕ → RFrame m n) (coords : ℕ → Coords)
    (obj_step_sz probe_step_sz : ℝ) (order : List ℕ) (s0 : JointState m n)
    (k : ℕ) (hk : k < order.length) :
    ∀ sk : JointState m n,
      sk = jointPass P data coords obj_step_sz probe_step_sz (order.take k) s0 →
      (jointPass P data coords obj_step_sz probe_step_sz
          (order.take (k + 1)) s0).probe =
        fun u =>
          sk.probe u +
            (probe_step_sz : ℂ) *
              (starRingEnd ℂ)
                (img2patchOne sk.obj (coords (order.get ⟨k, hk⟩)) u) *
              (P.inverse
                  (jointFreqUpdate P (data (order.get ⟨k, hk⟩)) fun v =>
                    img2patchOne sk.obj (coords (order.get ⟨k, hk⟩)) v *
                      sk.probe v) u -
                img2patchOne sk.obj (coords (order.get ⟨k, hk⟩)) u *
                  sk.probe u) /
              ((maxAbs (img2patchOne sk.obj (coords (order.get ⟨k, hk⟩)) :
                  Frame m n) ^ 2 : ℝ) : ℂ) := by
  intro sk hsk
  subst hsk
  unfold jointPass
  rw [foldl_take_succ _ _ _ k hk]
  rfl

/-- Witness for C4 at the same concrete input as C3. -/
theorem C4_probe_update_formula_witness :
    (jointPass (idProp 0 0) (fun _ _ => 3) (fun _ => Coords.mk 0 1 0 1) 1 1
        [0] ⟨fun _ => 1, fun _ => 1⟩).probe =
      fun u =>
        (1 : ℂ) +
          ((1 : ℝ) : ℂ) *
            (starRingEnd ℂ)
              (img2patchOne (fun _ => 1) (Coords.mk 0 1 0 1) u) *
            (((idProp 0 0).inverse
                (jointFreqUpdate (idProp 0 0) (fun _ => 3) fun v =>
                  img2patchOne (fun _ => 1) (Coords.mk 0 1 0 1) v * 1) u) -
              img2patchOne (fun _ => 1) (Coords.mk 0 1 0 1) u * 1) /
            ((maxAbs (img2patchOne (fun _ => (1 : ℂ)) (Coords.mk 0 1 0 1) :
                Frame 0 0) ^ 2 : ℝ) : ℂ) :=
  C4_probe_update_formula (idProp 0 0) (fun _ _ => 3)
    (fun _ => Coords.mk 0 1 0 1) 1 1 [0] ⟨fun _ => 1, fun _ => 1⟩ 0
    (by decide) _ rfl

/-- C1 (amended): within one pass, `epie_joint_recon` applies each visit's
step to the state produced by all earlier visits of the same pass — the
field submitted to the data-fitting projection is formed inside
`jointStep` from that latest state's object patch and probe (lines
146-147); in `epie_recon`, by contrast, every visit's projection input is
the pass-start field `epieSubmittedField`, computed once from the object
as it was when the pass began (lines 46-47), so later corrections do not
see earlier in-pass updates through their projected field. -/
theorem C1_sequential_state_use {m n : ℕ} (P : PropagationOp m n)
    (data : ℕ → RFrame m n) (coords : ℕ → Coords) (probe : Frame m n)
    (step_sz obj_step_sz probe_step_sz : ℝ) (order : List ℕ) (obj0 : Image)
    (s0 : JointState m n) (k : ℕ) (hk : k < order.length) :
    jointPass P data coords obj_step_sz probe_step_sz (order.take (k + 1)) s0 =
      jointStep P data coords obj_step_sz probe_step_sz
        (jointPass P data coords obj_step_sz probe_step_sz (order.take k) s0)
        (order.get ⟨k, hk⟩) ∧
    epiePass P data coords probe step_sz (order.take (k + 1)) obj0 =
      epiePassStep P data coords probe step_sz
        (epieSubmittedField coords probe obj0)
        (epiePass P data coords probe step_sz (order.take k) obj0)
        (order.get ⟨k, hk⟩) := by
  constructor
  · unfold jointPass
    rw [foldl_take_succ _ _ _ k hk]
  · unfold epiePass
    rw [foldl_take_succ _ _ _ k hk]

/-- Witness for the amended C1 at a concrete input. -/
theorem C1_sequential_state_use_witness :
    jointPass (idProp 0 0) (fun _ _ => 3) (fun _ => Coords.mk 0 1 0 1) 1 1
        [0] ⟨fun _ => 1, fun _ => 1⟩ =
      jointStep (idProp 0 0) (fun _ _ => 3) (fun _ => Coords.mk 0 1 0 1) 1 1
        ⟨fun _ => 1, fun _ => 1⟩ 0 ∧
    epiePass (idProp 0 0) (fun _ _ => 3) (fun _ => Coords.mk 0 1 0 1)
        (fun _ => 1) 1 [0] (fun _ => 1) =
      epiePassStep (idProp 0 0) (fun _ _ => 3) (fun _ => Coords.mk 0 1 0 1)
        (fun _ => 1) 1
        (epieSubmittedField (fun _ => Coords.mk 0 1 0 1) (fun _ => 1)
          (fun _ => 1))
        (fun _ => 1) 0 :=
  C1_sequential_state_use (idProp 0 0) (fun _ _ => 3)
    (fun _ => Coords.mk 0 1 0 1) (fun _ => 1) 1 1 1 [0] (fun _ => 1)
    ⟨fun _ => 1, fun _ => 1⟩ 0 (by decide)

/-- Counterexample to C1 as stated: in `epie_recon`, with two measurements
sharing the same 1×1 window at the origin (visit order `[0, 1]`,
all-ones object and probe, measured amplitude 3, identity propagation
operator), the field submitted to the data-fitting projection for the
second visited measurement is the pass-start value 1, whereas the field
formed from the object patch after the first visit's update — what the
claim asserts is submitted — is 3. -/
theorem C1_counterexample :
    epieSubmittedField (fun _ => Coords.mk 0 1 0 1)
        (fun _ => 1 : Frame 0 0) (fun _ => 1) 1 (0, 0) = 1 ∧
    img2patchOne
        (epiePass (idProp 0 0) (fun _ _ => 3) (fun _ => Coords.mk 0 1 0 1)
          (fun _ => 1) 1 [0] (fun _ => 1))
        (Coords.mk 0 1 0 1) ((0, 0) : FIdx 0 0) * (1 : ℂ) = 3 ∧
    (1 : ℂ) ≠ 3 := by
  refine ⟨by simp [epieSubmittedField, img2patchOne], ?_, by norm_num⟩
  have hsz : Sized 0 0 (Coords.mk 0 1 0 1) := ⟨by norm_num, by norm_num⟩
  have hpass : epiePass (idProp 0 0) (fun _ _ => 3)
      (fun _ => Coords.mk 0 1 0 1) (fun _ => 1) 1 [0] (fun _ => 1) =
      addWin (fun _ => 1) (Coords.mk 0 1 0 1)
        (fun u =>
          ((1 : ℝ) : ℂ) * (starRingEnd ℂ) 1 *
            (epieFrmUpdate (idProp 0 0) (fun _ => 3)
                (epieSubmittedField (fun _ => Coords.mk 0 1 0 1)
                  (fun _ => 1) (fun _ => 1) 0) u -
              epieSubmittedField (fun _ => Coords.mk 0 1 0 1) (fun _ => 1)
                (fun _ => 1) 0 u) /
            ((maxAbs (fun _ => 1 : Frame 0 0) ^ 2 : ℝ) : ℂ)) := rfl
  rw [hpass, img2patchOne_addWin_self hsz]
  have hmax : maxAbs (fun _ => 1 : Frame 0 0) = 1 := by
    simp [maxAbs]
  simp [img2patchOne, epieFrmUpdate, epieFreqUpdate, epieSubmittedField,
    idProp, hmax, Complex.arg_one]

/-- Counterexample to C6 as stated: with the uniform probe of magnitude
`10^-10` (so `max(|probe|)^2 = 10^-20`, below the guard floor `10^-15`),
the object update of `epie_recon` (line 59) divides by the raw `10^-20`
and adds `10^10` to the window, whereas the same numerator passed through
the guarded division primitive (what the claim asserts is used) yields
`10^5`: the update-step division is not performed by the floored
primitive. -/
theorem C6_counterexample :
    epieObjStep 1 (fun _ => ((1 / 10 ^ 10 : ℝ) : ℂ) : Frame 0 0)
        (Coords.mk 0 1 0 1) (fun _ => 0) (fun _ => 1) (fun _ => 0) (0, 0) =
      10 ^ 10 ∧
    divide_cmplx_numbers
        ((1 : ℂ) * (starRingEnd ℂ) ((1 / 10 ^ 10 : ℝ) : ℂ) * ((1 : ℂ) - 0))
        (maxAbs (fun _ => ((1 / 10 ^ 10 : ℝ) : ℂ) : Frame 0 0) ^ 2) =
      10 ^ 5 ∧
    ((10 : ℂ) ^ 10) ≠ 10 ^ 5 := by
  have hmax : maxAbs (fun _ => ((1 / 10 ^ 10 : ℝ) : ℂ) : Frame 0 0) =
      1 / 10 ^ 10 := by
    simp [maxAbs, Complex.abs_ofReal]
  refine ⟨?_, ?_, by norm_num⟩
  · simp only [epieObjStep, addWin]
    rw [if_pos (show inWin (Coords.mk 0 1 0 1) ((0 : ℤ), (0 : ℤ)) by decide)]
    simp only [frameAt]
    rw [dif_pos (by decide)]
    rw [hmax, Complex.conj_ofReal]
    push_cast
    norm_num
  · rw [hmax]
    unfold divide_cmplx_numbers
    rw [max_eq_right (by norm_num [divTol] : (1 / 10 ^ 10 : ℝ) ^ 2 ≤ divTol)]
    rw [Complex.conj_ofReal]
    simp only [divTol]
    push_cast
    norm_num

/-- C6 (amended): only the spectral-magnitude division in
`epie_joint_recon`'s projection (line 150) goes through the guarded
primitive `divide_cmplx_numbers`, whose divisor is floored at the positive
constant `divTol`; the divisions by `max(|probe|)^2` (and, in the probe
update, `max(|patch|)^2`) in the sequential update steps are raw
divisions with no floor. -/
theorem C6_division_guards {m n : ℕ} :
    0 < divTol ∧
    (∀ (num : ℂ) (den : ℝ),
      divide_cmplx_numbers num den = num / ((max den divTol : ℝ) : ℂ)) ∧
    (∀ (P : PropagationOp m n) (yj : RFrame m n) (frm : Frame m n)
        (u : FIdx m n),
      jointFreqUpdate P yj frm u =
        (yj u : ℂ) *
          divide_cmplx_numbers (P.forward frm u)
            (Complex.abs (P.forward frm u))) ∧
    (∀ (step_sz : ℝ) (probe : Frame m n) (c : Coords), Sized m n c →
      ∀ (frmj frmUpdj : Frame m n) (obj : Image) (u : FIdx m n),
      img2patchOne (epieObjStep step_sz probe c frmj frmUpdj obj) c u =
        img2patchOne obj c u +
          (step_sz : ℂ) * (starRingEnd ℂ) (probe u) *
            (frmUpdj u - frmj u) / ((maxAbs probe ^ 2 : ℝ) : ℂ)) :=
  ⟨by norm_num [divTol], fun _ _ => rfl, fun _ _ _ _ => rfl,
    fun _ _ _ hc _ _ _ u => img2patchOne_addWin_self hc _ _ u⟩

/-- Witness for the amended C6 at concrete inputs. -/
theorem C6_division_guards_witness :
    0 < divTol ∧
    divide_cmplx_numbers 1 0 = (1 : ℂ) / ((max 0 divTol : ℝ) : ℂ) ∧
    jointFreqUpdate (idProp 0 0) (fun _ => 3) (fun _ => 1) (0, 0) =
      ((3 : ℝ) : ℂ) *
        divide_cmplx_numbers ((idProp 0 0).forward (fun _ => 1) (0, 0))
          (Complex.abs ((idProp 0 0).forward (fun _ => 1) (0, 0))) ∧
    img2patchOne
        (epieObjStep 1 (fun _ => 1 : Frame 0 0) (Coords.mk 0 1 0 1)
          (fun _ => 0) (fun _ => 1) (fun _ => 0))
        (Coords.mk 0 1 0 1) ((0, 0) : FIdx 0 0) =
      img2patchOne (fun _ => 0) (Coords.mk 0 1 0 1) ((0, 0) : FIdx 0 0) +
        ((1 : ℝ) : ℂ) * (starRingEnd ℂ) 1 * ((1 : ℂ) - 0) /
          ((maxAbs (fun _ => 1 : Frame 0 0) ^ 2 : ℝ) : ℂ) :=
  ⟨(@C6_division_guards 0 0).1, (@C6_division_guards 0 0).2.1 1 0,
    (@C6_division_guards 0 0).2.2.1 (idProp 0 0) (fun _ => 3) (fun _ => 1)
      (0, 0),
    (@C6_division_guards 0 0).2.2.2 1 (fun _ => 1) (Coords.mk 0 1 0 1)
      ⟨by norm_num, by norm_num⟩ (fun _ => 0) (fun _ => 1) (fun _ => 0)
      (0, 0)⟩

/-- Unfolding one iteration of the `epie_recon` loop. -/
theorem epieIterPhase_succ {m n : ℕ} (P : PropagationOp m n)
    (data : ℕ → RFrame m n) (coords : ℕ → Coords) (N : ℕ)
    (probe : Frame m n) (step_sz : ℝ) (obj_ref : Image) (win : Image)
    (objDom : Finset (ℤ × ℤ)) (stream : ℕ → ℕ) (clock : ℕ → ℝ)
    (init_obj_guess : Image) (rng0 k : ℕ) :
    epieIterPhase P data coords N probe step_sz obj_ref win objDom stream
        clock init_obj_guess rng0 (k + 1) =
      epieIterBody P data coords N probe step_sz obj_ref win objDom stream
        clock
        (epieIterPhase P data coords N probe step_sz obj_ref win objDom
          stream clock init_obj_guess rng0 k) k := by
  unfold epieIterPhase
  rw [List.range_succ, List.foldl_append]
  rfl

/-- The three accumulator lists of `epie_recon` grow by exactly one entry
per iteration: after `k` iterations each has length `k`. -/
theorem epieIterPhase_lengths {m n : ℕ} (P : PropagationOp m n)
    (data : ℕ → RFrame m n) (coords : ℕ → Coords) (N : ℕ)
    (probe : Frame m n) (step_sz : ℝ) (obj_ref : Image) (win : Image)
    (objDom : Finset (ℤ × ℤ)) (stream : ℕ → ℕ) (clock : ℕ → ℝ)
    (init_obj_guess : Image) (rng0 : ℕ) : ∀ k : ℕ,
    (epieIterPhase P data coords N probe step_sz obj_ref win objDom stream
        clock init_obj_guess rng0 k).objErr.length = k ∧
    (epieIterPhase P data coords N probe step_sz obj_ref win objDom stream
        clock init_obj_guess rng0 k).diffrErr.length = k ∧
    (epieIterPhase P data coords N probe step_sz obj_ref win objDom stream
        clock init_obj_guess rng0 k).timeLs.length = k := by
  intro k
  induction k with
  | zero => exact ⟨rfl, rfl, rfl⟩
  | succ k ih =>
    rw [epieIterPhase_succ]
    unfold epieIterBody
    refine ⟨?_, ?_, ?_⟩ <;>
      simp [List.length_append, ih.1, ih.2.1, ih.2.2]

/-- C9 (amended): `epie_recon` takes no random-source parameter; the
per-iteration shuffle draws from the ambient process-wide `random` state
(modelled as the stream/cursor), and the sequence of visit orders is
determined by that ambient state together with the measurement count and
iteration count alone — it is identical across runs that share the
ambient stream even when every array input differs, and (by
`C9_counterexample`) it can differ between runs whose Python-signature
inputs are identical. -/
theorem C9_ambient_shuffle_determines_order {m n m2 n2 : ℕ}
    (P : PropagationOp m n) (P2 : PropagationOp m2 n2)
    (data : ℕ → RFrame m n) (data2 : ℕ → RFrame m2 n2)
    (coords coords2 : ℕ → Coords) (N : ℕ) (probe : Frame m n)
    (probe2 : Frame m2 n2) (step_sz step_sz2 : ℝ)
    (obj_ref obj_ref2 win win2 : Image)
    (objDom objDom2 : Finset (ℤ × ℤ)) (stream : ℕ → ℕ)
    (clock clock2 : ℕ → ℝ) (init init2 : Image) (rng0 : ℕ) : ∀ k : ℕ,
    (epieIterPhase P data coords N probe step_sz obj_ref win objDom stream
        clock init rng0 k).seq =
      (epieIterPhase P2 data2 coords2 N probe2 step_sz2 obj_ref2 win2
        objDom2 stream clock2 init2 rng0 k).seq ∧
    (epieIterPhase P data coords N probe step_sz obj_ref win objDom stream
        clock init rng0 k).rng =
      (epieIterPhase P2 data2 coords2 N probe2 step_sz2 obj_ref2 win2
        objDom2 stream clock2 init2 rng0 k).rng := by
  intro k
  induction k with
  | zero => exact ⟨rfl, rfl⟩
  | succ k ih =>
    rw [epieIterPhase_succ, epieIterPhase_succ]
    unfold epieIterBody
    simp only []
    rw [ih.1, ih.2]
    exact ⟨rfl, rfl⟩

/-- Counterexample to C9 as stated: two runs of `epie_recon` whose
Python-signature inputs are all identical (two measurements, one
iteration, same data, probe, references, seed-free signature) but whose
ambient `random`-module states differ (constant draw streams 0 vs 1)
visit the measurements in different orders `[1, 0]` vs `[0, 1]` — the
shuffle order is not derived from any explicit parameter of the solver. -/
theorem C9_counterexample :
    (epieIterPhase (idProp 0 0) (fun _ _ => 3) (fun _ => Coords.mk 0 1 0 1)
        2 (fun _ => 1) 1 (fun _ => 1) (fun _ => 1) ∅ (fun _ => 0)
        (fun _ => 0) (fun _ => 1) 0 1).seq = [1, 0] ∧
    (epieIterPhase (idProp 0 0) (fun _ _ => 3) (fun _ => Coords.mk 0 1 0 1)
        2 (fun _ => 1) 1 (fun _ => 1) (fun _ => 1) ∅ (fun _ => 1)
        (fun _ => 0) (fun _ => 1) 0 1).seq = [0, 1] ∧
    ([1, 0] : List ℕ) ≠ [0, 1] := by
  refine ⟨rfl, rfl, by decide⟩

/-- C10: for every call of `epie_recon` with `save_dir=None`, the function
raises — with at least one iteration the line-77 concatenation
`save_dir + 'obj_est_iter_...'` is `None + str` (`TypeError`); with zero
iterations the loop variable `i` used in the same line is unbound
(`NameError`) — and therefore never returns its result dictionary; the
error occurs after the iteration phase has completed, with both error
histories fully accumulated. Only calls with a non-`None` `save_dir` can
return normally. -/
theorem C10_none_save_dir_raises {m n : ℕ} (P : PropagationOp m n)
    (data : ℕ → RFrame m n) (coords : ℕ → Coords) (N : ℕ)
    (probe : Frame m n) (step_sz : ℝ) (obj_ref : Image) (win : Image)
    (objDom : Finset (ℤ × ℤ)) (stream : ℕ → ℕ) (clock : ℕ → ℝ)
    (init : Image) (rng0 num_iter : ℕ) :
    epie_recon P data coords N probe step_sz obj_ref win objDom stream clock
        init rng0 num_iter none =
      Except.error
        (if num_iter = 0 then PyErr.nameError "i"
          else PyErr.typeError
            "unsupported operand type(s) for +: NoneType and str") ∧
    (epieIterPhase P data coords N probe step_sz obj_ref win objDom stream
        clock init rng0 num_iter).objErr.length = num_iter ∧
    (epieIterPhase P data coords N probe step_sz obj_ref win objDom stream
        clock init rng0 num_iter).diffrErr.length = num_iter := by
  have hL := epieIterPhase_lengths P data coords N probe step_sz obj_ref win
    objDom stream clock init rng0 num_iter
  refine ⟨?_, hL.1, hL.2.1⟩
  by_cases h : num_iter = 0
  · simp [epie_recon, h]
  · simp [epie_recon, h]

/-- C5 (amended): for every `num_iter ≥ 1` (and a non-`None` `save_dir`,
without which the function raises, cf. C10), `epie_recon` performs exactly
`num_iter` passes with no early stopping and returns the dict whose
`obj_err` and `diffr_err` histories have length exactly `num_iter`; an
elapsed-time sequence of the same length is accumulated internally
(`time_ls`, lines 62-63), but it is not part of the returned outputs: the
returned dict has exactly the keys `obj_revy`, `obj_err`, `diffr_err`. -/
theorem C5_iteration_budget_and_outputs {m n : ℕ} (P : PropagationOp m n)
    (data : ℕ → RFrame m n) (coords : ℕ → Coords) (N : ℕ)
    (probe : Frame m n) (step_sz : ℝ) (obj_ref : Image) (win : Image)
    (objDom : Finset (ℤ × ℤ)) (stream : ℕ → ℕ) (clock : ℕ → ℝ)
    (init : Image) (rng0 num_iter : ℕ) (d : String) (hn : 1 ≤ num_iter) :
    (epieIterPhase P data coords N probe step_sz obj_ref win objDom stream
        clock init rng0 num_iter).objErr.length = num_iter ∧
    (epieIterPhase P data coords N probe step_sz obj_ref win objDom stream
        clock init rng0 num_iter).diffrErr.length = num_iter ∧
    (epieIterPhase P data coords N probe step_sz obj_ref win objDom stream
        clock init rng0 num_iter).timeLs.length = num_iter ∧
    epie_recon P data coords N probe step_sz obj_ref win objDom stream clock
        init rng0 num_iter (some d) =
      Except.ok (epieOutput
        (epieIterPhase P data coords N probe step_sz obj_ref win objDom
          stream clock init rng0 num_iter)) ∧
    (epieOutput
        (epieIterPhase P data coords N probe step_sz obj_ref win objDom
          stream clock init rng0 num_iter)).map Prod.fst =
      ["obj_revy", "obj_err", "diffr_err"] := by
  have hL := epieIterPhase_lengths P data coords N probe step_sz obj_ref win
    objDom stream clock init rng0 num_iter
  have h0 : num_iter ≠ 0 := by omega
  exact ⟨hL.1, hL.2.1, hL.2.2, by simp [epie_recon, h0], rfl⟩

/-- Witness for the amended C5 at a concrete input (one iteration, two
measurements). -/
theorem C5_iteration_budget_and_outputs_witness :
    (epieIterPhase (idProp 0 0) (fun _ _ => 3) (fun _ => Coords.mk 0 1 0 1)
        2 (fun _ => 1) 1 (fun _ => 1) (fun _ => 1) ∅ (fun _ => 0)
        (fun _ => 0) (fun _ => 1) 0 1).objErr.length = 1 ∧
    (epieIterPhase (idProp 0 0) (fun _ _ => 3) (fun _ => Coords.mk 0 1 0 1)
        2 (fun _ => 1) 1 (fun _ => 1) (fun _ => 1) ∅ (fun _ => 0)
        (fun _ => 0) (fun _ => 1) 0 1).diffrErr.length = 1 ∧
    (epieIterPhase (idProp 0 0) (fun _ _ => 3) (fun _ => Coords.mk 0 1 0 1)
        2 (fun _ => 1) 1 (fun _ => 1) (fun _ => 1) ∅ (fun _ => 0)
        (fun _ => 0) (fun _ => 1) 0 1).timeLs.length = 1 ∧
    epie_recon (idProp 0 0) (fun _ _ => 3) (fun _ => Coords.mk 0 1 0 1) 2
        (fun _ => 1) 1 (fun _ => 1) (fun _ => 1) ∅ (fun _ => 0)
        (fun _ => 0) (fun _ => 1) 0 1 (some "d") =
      Except.ok (epieOutput
        (epieIterPhase (idProp 0 0) (fun _ _ => 3)
          (fun _ => Coords.mk 0 1 0 1) 2 (fun _ => 1) 1 (fun _ => 1)
          (fun _ => 1) ∅ (fun _ => 0) (fun _ => 0) (fun _ => 1) 0 1)) ∧
    (epieOutput
        (epieIterPhase (idProp 0 0) (fun _ _ => 3)
          (fun _ => Coords.mk 0 1 0 1) 2 (fun _ => 1) 1 (fun _ => 1)
          (fun _ => 1) ∅ (fun _ => 0) (fun _ => 0) (fun _ => 1) 0
          1)).map Prod.fst = ["obj_revy", "obj_err", "diffr_err"] :=
  C5_iteration_budget_and_outputs (idProp 0 0) (fun _ _ => 3)
    (fun _ => Coords.mk 0 1 0 1) 2 (fun _ => 1) 1 (fun _ => 1) (fun _ => 1)
    ∅ (fun _ => 0) (fun _ => 0) (fun _ => 1) 0 1 "d" (by norm_num)

/-- Every entry of the accumulated error histories of `epie_recon` is an
NRMSE value, hence non-negative. -/
theorem epieIterPhase_err_nonneg {m n : ℕ} (P : PropagationOp m n)
    (data : ℕ → RFrame m n) (coords : ℕ → Coords) (N : ℕ)
    (probe : Frame m n) (step_sz : ℝ) (obj_ref : Image) (win : Image)
    (objDom : Finset (ℤ × ℤ)) (stream : ℕ → ℕ) (clock : ℕ → ℝ)
    (init : Image) (rng0 : ℕ) : ∀ (k : ℕ) (x : ℝ),
    (x ∈ (epieIterPhase P data coords N probe step_sz obj_ref win objDom
        stream clock init rng0 k).objErr → 0 ≤ x) ∧
    (x ∈ (epieIterPhase P data coords N probe step_sz obj_ref win objDom
        stream clock init rng0 k).diffrErr → 0 ≤ x) := by
  intro k
  induction k with
  | zero =>
    intro x
    exact ⟨fun h => absurd h (List.not_mem_nil x),
      fun h => absurd h (List.not_mem_nil x)⟩
  | succ k ih =>
    intro x
    rw [epieIterPhase_succ]
    unfold epieIterBody
    constructor
    · intro hx
      simp only [List.mem_append, List.mem_singleton] at hx
      rcases hx with hx | hx
      · exact (ih x).1 hx
      · rw [hx]; exact compute_nrmse_nonneg _ _ _ _
    · intro hx
      simp only [List.mem_append, List.mem_singleton] at hx
      rcases hx with hx | hx
      · exact (ih x).2 hx
      · rw [hx]; exact compute_nrmse_nonneg _ _ _ _

/-- Counterexample to the elapsed-time clause of C5: in a concrete run
(one measurement, one iteration, a wall clock reading 5 then 2, so the
internal `time_ls` is `[-3]`), no entry of the returned dict holds the
elapsed-time sequence — error-history entries are NRMSE values, hence
non-negative, and the only other entry is the image. The outputs do not
include the elapsed-time sequence. -/
theorem C5_counterexample :
    ¬ ∃ k : String,
      (k, OutVal.rlist
        (epieIterPhase (idProp 0 0) (fun _ _ => 3)
          (fun _ => Coords.mk 0 1 0 1) 1 (fun _ => 1) 1 (fun _ => 1)
          (fun _ => 1) ∅ (fun _ => 0) (fun t => if t = 0 then 5 else 2)
          (fun _ => 1) 0 1).timeLs) ∈
      epieOutput
        (epieIterPhase (idProp 0 0) (fun _ _ => 3)
          (fun _ => Coords.mk 0 1 0 1) 1 (fun _ => 1) 1 (fun _ => 1)
          (fun _ => 1) ∅ (fun _ => 0) (fun t => if t = 0 then 5 else 2)
          (fun _ => 1) 0 1) := by
  intro hx
  obtain ⟨k, hk⟩ := hx
  have hTime : (epieIterPhase (idProp 0 0) (fun _ _ => 3)
      (fun _ => Coords.mk 0 1 0 1) 1 (fun _ => 1) 1 (fun _ => 1)
      (fun _ => 1) ∅ (fun _ => 0) (fun t => if t = 0 then 5 else 2)
      (fun _ => 1) 0 1).timeLs = [(-3 : ℝ)] := by
    have h1 : epieIterPhase (idProp 0 0) (fun _ _ => 3)
        (fun _ => Coords.mk 0 1 0 1) 1 (fun _ => 1) 1 (fun _ => 1)
        (fun _ => 1) ∅ (fun _ => 0) (fun t => if t = 0 then 5 else 2)
        (fun _ => 1) 0 1 =
        epieIterBody (idProp 0 0) (fun _ _ => 3)
          (fun _ => Coords.mk 0 1 0 1) 1 (fun _ => 1) 1 (fun _ => 1)
          (fun _ => 1) ∅ (fun _ => 0) (fun t => if t = 0 then 5 else 2)
          (epieInitState (fun _ => 1) 1 0) 0 :=
      epieIterPhase_succ (idProp 0 0) (fun _ _ => 3)
        (fun _ => Coords.mk 0 1 0 1) 1 (fun _ => 1) 1 (fun _ => 1)
        (fun _ => 1) ∅ (fun _ => 0) (fun t => if t = 0 then 5 else 2)
        (fun _ => 1) 0 0
    rw [h1]
    unfold epieIterBody epieInitState
    norm_num
  rw [hTime] at hk
  simp only [epieOutput, List.mem_cons, List.not_mem_nil, or_false,
    Prod.mk.injEq] at hk
  have hnn := epieIterPhase_err_nonneg (idProp 0 0) (fun _ _ => 3)
    (fun _ => Coords.mk 0 1 0 1) 1 (fun _ => 1) 1 (fun _ => 1) (fun _ => 1)
    ∅ (fun _ => 0) (fun t => if t = 0 then 5 else 2) (fun _ => 1) 0 1 (-3)
  rcases hk with ⟨_, h⟩ | ⟨_, h⟩ | ⟨_, h⟩
  · exact OutVal.noConfusion h
  · have hmem : (-3 : ℝ) ∈ (epieIterPhase (idProp 0 0) (fun _ _ => 3)
        (fun _ => Coords.mk 0 1 0 1) 1 (fun _ => 1) 1 (fun _ => 1)
        (fun _ => 1) ∅ (fun _ => 0) (fun t => if t = 0 then 5 else 2)
        (fun _ => 1) 0 1).objErr := by
      rw [show (epieIterPhase (idProp 0 0) (fun _ _ => 3)
        (fun _ => Coords.mk 0 1 0 1) 1 (fun _ => 1) 1 (fun _ => 1)
        (fun _ => 1) ∅ (fun _ => 0) (fun t => if t = 0 then 5 else 2)
        (fun _ => 1) 0 1).objErr = [(-3 : ℝ)] from (OutVal.rlist.injEq _ _).mp h.symm ▸ rfl]
      simp
    linarith [hnn.1 hmem]
  · have hmem : (-3 : ℝ) ∈ (epieIterPhase (idProp 0 0) (fun _ _ => 3)
        (fun _ => Coords.mk 0 1 0 1) 1 (fun _ => 1) 1 (fun _ => 1)
        (fun _ => 1) ∅ (fun _ => 0) (fun t => if t = 0 then 5 else 2)
        (fun _ => 1) 0 1).diffrErr := by
      rw [show (epieIterPhase (idProp 0 0) (fun _ _ => 3)
        (fun _ => Coords.mk 0 1 0 1) 1 (fun _ => 1) 1 (fun _ => 1)
        (fun _ => 1) ∅ (fun _ => 0) (fun t => if t = 0 then 5 else 2)
        (fun _ => 1) 0 1).diffrErr = [(-3 : ℝ)] from (OutVal.rlist.injEq _ _).mp h.symm ▸ rfl]
      simp
    linarith [hnn.2 hmem]

/-- Each heap-loop iteration leaves every cell below `st0.length`
untouched and never shrinks the store: its only write hits the `obj_est`
cell `rObj` and its only allocation appends at the end. -/
theorem epieHeapIter_preserves {m n : ℕ} (P : PropagationOp m n)
    (coords : ℕ → Coords) (step_sz : ℝ) (orders : ℕ → List ℕ)
    (rObj rPr rData : ℕ) (st st0 : List (HVal m n))
    (hlen : st0.length ≤ st.length) (hobj : st0.length ≤ rObj)
    (hpre : ∀ j, j < st0.length → st[j]? = st0[j]?) (i : ℕ) :
    st0.length ≤ (epieHeapIter P coords step_sz orders rObj rPr rData st i).length ∧
    ∀ j, j < st0.length →
      (epieHeapIter P coords step_sz orders rObj rPr rData st i)[j]? = st0[j]? := by
  unfold epieHeapIter
  constructor
  · simp only [List.length_set, List.length_append, List.length_cons,
      List.length_nil]
    omega
  · intro j hj
    rw [List.getElem?_set_ne (by omega), List.getElem?_append,
      if_pos (by omega)]
    exact hpre j hj

/-- C7: `epie_recon` never mutates its input arrays — after the run, every
heap cell that existed before the call (in particular the cells holding
`diffraction_data`, `probe_ref` and `init_obj_guess`, referenced by
`rData`, `rProbe`, `rInit`) holds exactly the value it held before; the
solver allocates private copies (lines 35-36) and writes only to them. -/
theorem C7_inputs_not_mutated {m n : ℕ} (P : PropagationOp m n)
    (coords : ℕ → Coords) (step_sz : ℝ) (orders : ℕ → List ℕ)
    (num_iter : ℕ) (st0 : List (HVal m n)) (rInit rData rProbe k : ℕ)
    (hk : k < st0.length) :
    (epieHeapRun P coords step_sz orders num_iter st0 rInit rData rProbe)[k]? =
      st0[k]? := by
  unfold epieHeapRun
  refine (foldl_invariant _
    (fun st =>
      st0.length ≤ st.length ∧ ∀ j, j < st0.length → st[j]? = st0[j]?)
    ?_ (List.range num_iter) _ ?_).2 k hk
  · intro st i h
    exact epieHeapIter_preserves P coords step_sz orders _ _ rData st st0
      h.1 le_rfl h.2 i
  · refine ⟨by simp only [List.length_append, List.length_cons,
      List.length_nil]; omega, fun j hj => ?_⟩
    rw [List.getElem?_append,
      if_pos (by simp only [List.length_append, List.length_cons,
        List.length_nil]; omega),
      List.getElem?_append, if_pos hj]

/-- Witness for C7 at a concrete input: a one-cell store holding the
measurement data, read back unchanged after two iterations. -/
theorem C7_inputs_not_mutated_witness :
    (epieHeapRun (idProp 0 0) (fun _ => Coords.mk 0 1 0 1) 1 (fun _ => [0])
        2 [HVal.hrstack fun _ _ => 3] 0 0 0)[0]? =
      ([HVal.hrstack fun _ _ => 3] : List (HVal 0 0))[0]? :=
  C7_inputs_not_mutated (idProp 0 0) (fun _ => Coords.mk 0 1 0 1) 1
    (fun _ => [0]) 2 [HVal.hrstack fun _ _ => 3] 0 0 0 0 (by norm_num)

/-- Unfolding one iteration of the `epie_joint_recon` loop. -/
theorem jointIterPhase_succ {m n : ℕ} (P : PropagationOp m n)
    (data : ℕ → RFrame m n) (coords : ℕ → Coords) (N : ℕ)
    (obj_step_sz probe_step_sz : ℝ) (win : Image)
    (objDom : Finset (ℤ × ℤ)) (stream : ℕ → ℕ) (init_obj : Image)
    (init_probe : Frame m n) (obj_ref : Option Image)
    (probe_ref : Option (Frame m n)) (rng0 k : ℕ) :
    jointIterPhase P data coords N obj_step_sz probe_step_sz win objDom
        stream init_obj init_probe obj_ref probe_ref rng0 (k + 1) =
      jointIterBody P data coords N obj_step_sz probe_step_sz win objDom
        stream
        (jointIterPhase P data coords N obj_step_sz probe_step_sz win objDom
          stream init_obj init_probe obj_ref probe_ref rng0 k) k := by
  unfold jointIterPhase
  rw [List.range_succ, List.foldl_append]
  rfl

/-- The object-error history of `epie_joint_recon` has one entry per
iteration. -/
theorem jointIterPhase_objErr_length {m n : ℕ} (P : PropagationOp m n)
    (data : ℕ → RFrame m n) (coords : ℕ → Coords) (N : ℕ)
    (obj_step_sz probe_step_sz : ℝ) (win : Image)
    (objDom : Finset (ℤ × ℤ)) (stream : ℕ → ℕ) (init_obj : Image)
    (init_probe : Frame m n) (obj_ref : Option Image)
    (probe_ref : Option (Frame m n)) (rng0 : ℕ) : ∀ k : ℕ,
    (jointIterPhase P data coords N obj_step_sz probe_step_sz win objDom
        stream init_obj init_probe obj_ref probe_ref rng0 k).objErr.length = k := by
  intro k
  induction k with
  | zero => rfl
  | succ k ih =>
    rw [jointIterPhase_succ]
    unfold jointIterBody
    simp [List.length_append, ih]

/-- When a reference object is supplied, `epie_joint_recon` keeps using it:
the `obj_ref` binding never switches to the aliased estimate. -/
theorem jointIterPhase_objRef_given {m n : ℕ} (P : PropagationOp m n)
    (data : ℕ → RFrame m n) (coords : ℕ → Coords) (N : ℕ)
    (obj_step_sz probe_step_sz : ℝ) (win : Image)
    (objDom : Finset (ℤ × ℤ)) (stream : ℕ → ℕ) (init_obj : Image)
    (init_probe : Frame m n) (r : Image)
    (probe_ref : Option (Frame m n)) (rng0 : ℕ) : ∀ k : ℕ,
    (jointIterPhase P data coords N obj_step_sz probe_step_sz win objDom
        stream init_obj init_probe (some r) probe_ref rng0 k).objRef =
      RefMode.rGiven r := by
  intro k
  induction k with
  | zero => rfl
  | succ k ih =>
    rw [jointIterPhase_succ]
    unfold jointIterBody
    simp only []
    rw [ih]

/-- C8: in every iteration, the object-domain error reported by the
sequential solvers is computed on the phase-normalized estimate: the
`i`-th entry of the object-error history equals the NRMSE of
`phase_norm(estimate_after_pass_i * win, ref * win) * win` against
`ref * win` — for `epie_recon` always (lines 70-73), and for
`epie_joint_recon` whenever a reference image is supplied (lines 163-164
and 175). -/
theorem C8_phase_norm_before_error {m n m2 n2 : ℕ} (P : PropagationOp m n)
    (data : ℕ → RFrame m n) (coords : ℕ → Coords) (N : ℕ)
    (probe : Frame m n) (step_sz : ℝ) (obj_ref : Image) (win : Image)
    (objDom : Finset (ℤ × ℤ)) (stream : ℕ → ℕ) (clock : ℕ → ℝ)
    (init : Image) (rng0 num_iter : ℕ) (P2 : PropagationOp m2 n2)
    (data2 : ℕ → RFrame m2 n2) (coords2 : ℕ → Coords) (N2 : ℕ)
    (obj_step_sz probe_step_sz : ℝ) (win2 : Image)
    (objDom2 : Finset (ℤ × ℤ)) (stream2 : ℕ → ℕ) (init2 : Image)
    (init_probe2 : Frame m2 n2) (r : Image)
    (probe_ref2 : Option (Frame m2 n2)) (rng02 num_iter2 : ℕ) :
    (∀ i, i < num_iter →
      (epieIterPhase P data coords N probe step_sz obj_ref win objDom stream
          clock init rng0 num_iter).objErr[i]? =
        some (compute_nrmse objDom
          (fun q =>
            phase_norm objDom
              (fun q' =>
                (epieIterPhase P data coords N probe step_sz obj_ref win
                  objDom stream clock init rng0 (i + 1)).obj q' * win q')
              (fun q' => obj_ref q' * win q') q * win q)
          (fun q => obj_ref q * win q) fun q => win q)) ∧
    (∀ i, i < num_iter2 →
      (jointIterPhase P2 data2 coords2 N2 obj_step_sz probe_step_sz win2
          objDom2 stream2 init2 init_probe2 (some r) probe_ref2 rng02
          num_iter2).objErr[i]? =
        some (compute_nrmse objDom2
          (fun q =>
            phase_norm objDom2
              (fun q' =>
                (jointIterPhase P2 data2 coords2 N2 obj_step_sz probe_step_sz
                  win2 objDom2 stream2 init2 init_probe2 (some r) probe_ref2
                  rng02 (i + 1)).st.obj q' * win2 q')
              (fun q' => r q' * win2 q') q * win2 q)
          (fun q => r q * win2 q) fun q => win2 q)) := by
  constructor
  · induction num_iter with
    | zero => intro i hi; omega
    | succ t ih =>
      intro i hi
      rcases Nat.lt_succ_iff_lt_or_eq.mp hi with h | h
      · rw [epieIterPhase_succ]
        unfold epieIterBody
        simp only []
        rw [List.getElem?_append,
          if_pos (by
            rw [(epieIterPhase_lengths P data coords N probe step_sz obj_ref
              win objDom stream clock init rng0 t).1]
            exact h)]
        exact ih i h
      · subst h
        rw [epieIterPhase_succ]
        unfold epieIterBody
        simp only []
        have hlen := (epieIterPhase_lengths P data coords N probe step_sz
          obj_ref win objDom stream clock init rng0 i).1
        rw [List.getElem?_append, if_neg (by omega)]
        simp [hlen]
  · induction num_iter2 with
    | zero => intro i hi; omega
    | succ t ih =>
      intro i hi
      rcases Nat.lt_succ_iff_lt_or_eq.mp hi with h | h
      · rw [jointIterPhase_succ]
        unfold jointIterBody
        simp only []
        rw [List.getElem?_append,
          if_pos (by
            rw [jointIterPhase_objErr_length P2 data2 coords2 N2 obj_step_sz
              probe_step_sz win2 objDom2 stream2 init2 init_probe2 (some r)
              probe_ref2 rng02 t]
            exact h)]
        exact ih i h
      · subst h
        rw [jointIterPhase_succ]
        unfold jointIterBody
        simp only []
        rw [jointIterPhase_objRef_given P2 data2 coords2 N2 obj_step_sz
          probe_step_sz win2 objDom2 stream2 init2 init_probe2 r probe_ref2
          rng02 i]
        have hlen := jointIterPhase_objErr_length P2 data2 coords2 N2
          obj_step_sz probe_step_sz win2 objDom2 stream2 init2 init_probe2
          (some r) probe_ref2 rng02 i
        rw [List.getElem?_append, if_neg (by omega)]
        simp [hlen]

/-- Witness for C8 at a concrete input: one iteration of each solver. -/
theorem C8_phase_norm_before_error_witness :
    (epieIterPhase (idProp 0 0) (fun _ _ => 3) (fun _ => Coords.mk 0 1 0 1)
        1 (fun _ => 1) 1 (fun _ => 1) (fun _ => 1) ∅ (fun _ => 0)
        (fun _ => 0) (fun _ => 1) 0 1).objErr[0]? =
      some (compute_nrmse ∅
        (fun q =>
          phase_norm ∅
            (fun q' =>
              (epieIterPhase (idProp 0 0) (fun _ _ => 3)
                (fun _ => Coords.mk 0 1 0 1) 1 (fun _ => 1) 1 (fun _ => 1)
                (fun _ => 1) ∅ (fun _ => 0) (fun _ => 0) (fun _ => 1) 0
                1).obj q' * 1)
            (fun _ => 1 * 1) q * 1)
        (fun _ => 1 * 1) fun _ => 1) ∧
    (jointIterPhase (idProp 0 0) (fun _ _ => 3) (fun _ => Coords.mk 0 1 0 1)
        1 1 1 (fun _ => 1) ∅ (fun _ => 0) (fun _ => 1) (fun _ => 1)
        (some fun _ => 1) none 0 1).objErr[0]? =
      some (compute_nrmse ∅
        (fun q =>
          phase_norm ∅
            (fun q' =>
              (jointIterPhase (idProp 0 0) (fun _ _ => 3)
                (fun _ => Coords.mk 0 1 0 1) 1 1 1 (fun _ => 1) ∅
                (fun _ => 0) (fun _ => 1) (fun _ => 1) (some fun _ => 1)
                none 0 1).st.obj q' * 1)
            (fun _ => 1 * 1) q * 1)
        (fun _ => 1 * 1) fun _ => 1) :=
  ⟨(C8_phase_norm_before_error (idProp 0 0) (fun _ _ => 3)
      (fun _ => Coords.mk 0 1 0 1) 1 (fun _ => 1) 1 (fun _ => 1)
      (fun _ => 1) ∅ (fun _ => 0) (fun _ => 0) (fun _ => 1) 0 1 (idProp 0 0)
      (fun _ _ => 3) (fun _ => Coords.mk 0 1 0 1) 1 1 1 (fun _ => 1) ∅
      (fun _ => 0) (fun _ => 1) (fun _ => 1) (fun _ => 1) none 0 1).1 0
      (by norm_num),
    (C8_phase_norm_before_error (idProp 0 0) (fun _ _ => 3)
      (fun _ => Coords.mk 0 1 0 1) 1 (fun _ => 1) 1 (fun _ => 1)
      (fun _ => 1) ∅ (fun _ => 0) (fun _ => 0) (fun _ => 1) 0 1 (idProp 0 0)
      (fun _ _ => 3) (fun _ => Coords.mk 0 1 0 1) 1 1 1 (fun _ => 1) ∅
      (fun _ => 0) (fun _ => 1) (fun _ => 1) (fun _ => 1) none 0 1).2 0
      (by norm_num)⟩

end

end Ptycho
